import Mathlib

/-!
Verification of the instance-store module of the TT repository
(`src/store/instance.hook.ts`): the persisted-blob sanitizer, the zustand
store operations (`addRandomInstance`, `clear`, `select`, the rehydration
`merge`), and the golden-spiral spawn-position generator.

JavaScript numbers are idealized as real numbers; a decoded JSON/JS value
is modelled by the inductive type `JSVal`.  `Date.now()` and `Math.random()`
results enter as explicit parameters.  The platform test
`Platform.OS === 'ios'` is a boolean parameter `ios`.
-/

/-- A decoded JavaScript value.  `vNum finite v` carries a finiteness flag:
`vNum false v` stands for a non-finite number (`NaN`/`Infinity`), for which
`Number.isFinite` is `false`. -/
inductive JSVal where
  | vNull
  | vUndefined
  | vBool (b : Bool)
  | vNum (finite : Bool) (value : ℝ)
  | vStr (s : String)
  | vArr (elems : List JSVal)
  | vObj (fields : List (String × JSVal))

/-- JavaScript property read `v[k]`: a missing key, or a read on a
non-object, yields `undefined` (decoded JSON arrays carry no string keys). -/
def jsField (v : JSVal) (k : String) : JSVal :=
  match v with
  | .vObj fs =>
      match fs.find? (fun p => p.1 == k) with
      | some p => p.2
      | none => .vUndefined
  | _ => .vUndefined

/-- The guard `!candidate || typeof candidate !== 'object'` fails exactly on
objects and arrays (`typeof null` is `'object'` but `null` is falsy; arrays
are objects and always truthy). -/
def isObjectLike : JSVal → Bool
  | .vObj _ => true
  | .vArr _ => true
  | _ => false

/-- `isFiniteNumber`: `typeof value === 'number' && Number.isFinite(value)`. -/
def isFiniteNumber : JSVal → Bool
  | .vNum finite _ => finite
  | _ => false

/-- `isVector3Tuple`: an array of length 3 whose entries are all finite
numbers. -/
def isVector3Tuple : JSVal → Bool
  | .vArr l => l.length == 3 && l.all isFiniteNumber
  | _ => false

/-- Numeric payload of a JS number (only consulted after `isFiniteNumber`). -/
def numVal : JSVal → ℝ
  | .vNum _ x => x
  | _ => 0

/-- The three numeric entries of a vector value (only consulted after
`isVector3Tuple`). -/
def vec3Val : JSVal → ℝ × ℝ × ℝ
  | .vArr (a :: b :: c :: _) => (numVal a, numVal b, numVal c)
  | _ => (0, 0, 0)

/-- The single shape variant of this app. -/
inductive ShapeType where
  | planet
deriving DecidableEq, Repr

/-- The record type `Instance3D` of `instance.hook.ts`. -/
structure Instance3D where
  id : String
  type : ShapeType
  color : String
  ring : Bool
  hasContinents : Bool
  name : String
  scale : ℝ
  position : ℝ × ℝ × ℝ
  rotation : ℝ × ℝ × ℝ
  createdAt : ℝ

/-- `sanitizeInstance`: validate/repair one candidate record.  `now` is the
value of `Date.now()` used for the `createdAt` default.  Returns `none`
(JS `null`) when the candidate is not object-like, or when its `id` or
`name` is not a string or is the empty string (`!id` / `!name`). -/
def sanitizeInstance (candidate : JSVal) (now : ℝ) : Option Instance3D :=
  if isObjectLike candidate then
    let id : Option String :=
      match jsField candidate "id" with | .vStr s => some s | _ => none
    let color : String :=
      match jsField candidate "color" with | .vStr s => s | _ => "#4C8DFF"
    let ring : Bool :=
      match jsField candidate "ring" with | .vBool b => b | _ => false
    let hasContinents : Bool :=
      match jsField candidate "hasContinents" with | .vBool b => b | _ => false
    let name : Option String :=
      match jsField candidate "name" with | .vStr s => some s | _ => none
    let scale : ℝ :=
      if isFiniteNumber (jsField candidate "scale") then
        numVal (jsField candidate "scale")
      else 1
    let position : ℝ × ℝ × ℝ :=
      if isVector3Tuple (jsField candidate "position") then
        vec3Val (jsField candidate "position")
      else (0, 0, 0)
    let rotation : ℝ × ℝ × ℝ :=
      if isVector3Tuple (jsField candidate "rotation") then
        vec3Val (jsField candidate "rotation")
      else (0, 0, 0)
    let createdAt : ℝ :=
      if isFiniteNumber (jsField candidate "createdAt") then
        numVal (jsField candidate "createdAt")
      else now
    match id, name with
    | some i, some n =>
        if i = "" then none
        else if n = "" then none
        else some { id := i, type := .planet, color := color, ring := ring,
                    hasContinents := hasContinents, name := n, scale := scale,
                    position := position, rotation := rotation,
                    createdAt := createdAt }
    | _, _ => none
  else none

/-- `sanitizeInstances`: a non-array yields `[]`; an array is mapped through
`sanitizeInstance` and the `null` results are filtered out. -/
def sanitizeInstances (value : JSVal) (now : ℝ) : List Instance3D :=
  match value with
  | .vArr xs => xs.filterMap (fun c => sanitizeInstance c now)
  | _ => []

/-- A JS value that is a non-empty string (the values `v` for which
`typeof v === 'string'` holds and `v` is truthy). -/
def isNonEmptyStringVal : JSVal → Bool
  | .vStr s => !(s == "")
  | _ => false

/-- `MAX_INSTANCES`: 14 on iOS, 26 otherwise. -/
def MAX_INSTANCES (ios : Bool) : ℕ := if ios then 14 else 26

/-- `SPAWN_SPACING`: 1.25 on iOS, 1.6 otherwise. -/
noncomputable def SPAWN_SPACING (ios : Bool) : ℝ := if ios then 1.25 else 1.6

/-- `GOLDEN_ANGLE_RADIANS = Math.PI * (3 - Math.sqrt(5))`. -/
noncomputable def GOLDEN_ANGLE_RADIANS : ℝ := Real.pi * (3 - Real.sqrt 5)

/-- `CENTER_INSTANCE_ID`. -/
def CENTER_INSTANCE_ID : String := "center"

/-- `randomFloat(min, max) = min + Math.random() * (max - min)`, with the
`Math.random()` draw `r ∈ [0, 1)` passed explicitly. -/
def randomFloat (min max r : ℝ) : ℝ := min + r * (max - min)

/-- `PLANET_COLORS`. -/
def PLANET_COLORS : List String :=
  ["#3B82F6", "#F97316", "#10B981", "#F43F5E", "#A855F7", "#EAB308"]

/-- `CONTINENT_PROBABILITY`. -/
noncomputable def CONTINENT_PROBABILITY : ℝ := 0.45

/-- `randomInt(min, max) = Math.floor(min + Math.random() * (max - min + 1))`,
with the draw `r` explicit. -/
noncomputable def randomInt (min max : ℤ) (r : ℝ) : ℤ :=
  ⌊(min : ℝ) + r * ((max : ℝ) - (min : ℝ) + 1)⌋

/-- `randomLetter() = String.fromCharCode(97 + randomInt(0, 4))`. -/
noncomputable def randomLetter (r : ℝ) : String :=
  String.mk [Char.ofNat (97 + (randomInt 0 4 r).toNat)]

/-- `String.prototype.padStart(n, c)`. -/
def padStart (s : String) (n : ℕ) (c : Char) : String :=
  if s.length < n then String.mk (List.replicate (n - s.length) c) ++ s else s

/-- `createPlanetName`: `roll` is the branching draw, `r1` (and `r2` where a
second draw happens) are the subsequent `Math.random()` draws. -/
noncomputable def createPlanetName (roll r1 r2 : ℝ) : String :=
  if roll < 0.5 then
    "Kepler-" ++ padStart (toString (randomInt 1 999 r1)) 3 '0'
  else if roll < 0.8 then
    "TRAPPIST-1" ++ randomLetter r1
  else if roll < 0.93 then
    "HD " ++ toString (randomInt 10000 199999 r1) ++ " " ++ randomLetter r2
  else
    "GJ " ++ toString (randomInt 100 999 r1) ++ " " ++ randomLetter r2

/-- `randomPlanetColor() = PLANET_COLORS[Math.floor(Math.random() * length)]`;
for `r ∈ [0, 1)` the index is always in range, so the `getD` default is
never hit. -/
noncomputable def randomPlanetColor (r : ℝ) : String :=
  PLANET_COLORS.getD (⌊r * (PLANET_COLORS.length : ℝ)⌋).toNat "#3B82F6"

/-- The `Math.random()` draws consumed by one `createRandomInstance()` call,
plus the random id suffix (`Math.random().toString(16).slice(2)`), whose
float-to-hex rendering is kept abstract as a string. -/
structure GeneratorDraws where
  idSuffix : String
  colorRoll : ℝ
  ringRoll : ℝ
  continentsRoll : ℝ
  nameRoll : ℝ
  nameR1 : ℝ
  nameR2 : ℝ
  scaleRoll : ℝ
  rotationRoll : ℝ

/-- `createInstanceId()`: `Date.now()` rendered as a string (kept abstract as
`nowRepr`), a dash, and the random suffix. -/
def createInstanceId (nowRepr suffix : String) : String := nowRepr ++ "-" ++ suffix

/-- `createRandomInstance()`: one fresh record; `now` is `Date.now()` and `d`
the random draws. -/
noncomputable def createRandomInstance (d : GeneratorDraws) (now : ℝ)
    (nowRepr : String) : Instance3D :=
  { id := createInstanceId nowRepr d.idSuffix
    type := .planet
    color := randomPlanetColor d.colorRoll
    ring := decide (d.ringRoll < 0.28)
    hasContinents := decide (d.continentsRoll < CONTINENT_PROBABILITY)
    name := createPlanetName d.nameRoll d.nameR1 d.nameR2
    scale := randomFloat 0.65 1.25 d.scaleRoll
    position := (0, 0, 0)
    rotation := (0, randomFloat 0 Real.pi d.rotationRoll, 0)
    createdAt := now }

/-- `getSpiralSpawnPosition(instanceIndex)`: golden-angle spiral placement;
`yr ∈ [0, 1)` is the `Math.random()` draw behind `randomFloat(-0.4, 1.2)`. -/
noncomputable def getSpiralSpawnPosition (ios : Bool) (instanceIndex : ℕ)
    (yr : ℝ) : ℝ × ℝ × ℝ :=
  let radius := SPAWN_SPACING ios * Real.sqrt instanceIndex
  let angle := (instanceIndex : ℝ) * GOLDEN_ANGLE_RADIANS
  (radius * Real.cos angle, randomFloat (-0.4) 1.2 yr, radius * Real.sin angle)

/-- Distance of a spawn position from the vertical (y) axis. -/
noncomputable def distFromAxis (p : ℝ × ℝ × ℝ) : ℝ :=
  Real.sqrt (p.1 ^ 2 + p.2.2 ^ 2)

/-- The data fields of the zustand store state (the three mutators are
modelled as the functions below, not as state fields). -/
structure InstancesState where
  instances : List Instance3D
  selectedId : Option String
  lastCreatedId : Option String

/-- The seed record present at first run (`createdAt` is `Date.now()`). -/
def seedInstance (now : ℝ) : Instance3D :=
  { id := CENTER_INSTANCE_ID
    type := .planet
    color := "#3B82F6"
    ring := false
    hasContinents := true
    name := "Kepler-001"
    scale := 1
    position := (0, 0, 0)
    rotation := (0, 0, 0)
    createdAt := now }

/-- The initial store state. -/
def initialState (now : ℝ) : InstancesState :=
  { instances := [seedInstance now], selectedId := none, lastCreatedId := none }

/-- `addRandomInstance`: generate (`gen` is the `createRandomInstance()`
result, arbitrary here), place at the spiral position computed from the
pre-insert length, prepend, truncate to `MAX_INSTANCES`, set `lastCreatedId`.
`selectedId` is untouched by the partial `set`. -/
noncomputable def addRandomInstance (ios : Bool) (s : InstancesState)
    (gen : Instance3D) (yr : ℝ) : InstancesState :=
  let instanceIndex := s.instances.length
  let newInstance := { gen with position := getSpiralSpawnPosition ios instanceIndex yr }
  { s with
    instances := (newInstance :: s.instances).take (MAX_INSTANCES ios)
    lastCreatedId := some newInstance.id }

/-- `clear`: reset to the seed state with no selection and no last-created. -/
def clearInstances (_s : InstancesState) (now : ℝ) : InstancesState :=
  { instances := [seedInstance now], selectedId := none, lastCreatedId := none }

/-- `select(id)`: return the state unchanged when the selection already
equals `id`, otherwise set `selectedId := id`. -/
def selectInstance (s : InstancesState) (id : Option String) : InstancesState :=
  if s.selectedId = id then s else { s with selectedId := id }

/-- The persist `merge` option: sanitize the persisted blob's `instances`,
keep the persisted `selectedId` only when it is a string among the sanitized
records' ids, prefer the sanitized records when non-empty, reset
`lastCreatedId`.  (`persistedState ?? {}` and property reads on non-objects
both make the fields `undefined`, which `jsField` models uniformly.) -/
def mergePersisted (persisted : JSVal) (currentState : InstancesState)
    (now : ℝ) : InstancesState :=
  let sanitizedInstances := sanitizeInstances (jsField persisted "instances") now
  let validIds := sanitizedInstances.map (fun inst => inst.id)
  let selectedId : Option String :=
    match jsField persisted "selectedId" with
    | .vStr s => if s ∈ validIds then some s else none
    | _ => none
  { instances := if sanitizedInstances.isEmpty then currentState.instances
                 else sanitizedInstances
    selectedId := selectedId
    lastCreatedId := none }

/-- The states reachable from the initial seed state by the store's
operations, with `createRandomInstance`'s output, the random draws, the
`Date.now()` values, the `select` argument and the rehydrated blob all
arbitrary. -/
inductive Reachable (ios : Bool) : InstancesState → Prop where
  | init (now : ℝ) : Reachable ios (initialState now)
  | add (s : InstancesState) (gen : Instance3D) (yr : ℝ) :
      Reachable ios s → Reachable ios (addRandomInstance ios s gen yr)
  | clear (s : InstancesState) (now : ℝ) :
      Reachable ios s → Reachable ios (clearInstances s now)
  | select (s : InstancesState) (id : Option String) :
      Reachable ios s → Reachable ios (selectInstance s id)
  | merge (s : InstancesState) (persisted : JSVal) (now : ℝ) :
      Reachable ios s → Reachable ios (mergePersisted persisted s now)

/-- The record that sanitizing `{id: "x", name: "y"}` produces; used by the
C1 witness. -/
def sampleSanitized : Instance3D :=
  { id := "x", type := .planet, color := "#4C8DFF", ring := false,
    hasContinents := false, name := "y", scale := 1,
    position := (0, 0, 0), rotation := (0, 0, 0), createdAt := 0 }

/-- The store operations restricted as the amended C2 requires: `select` is
only invoked with `null` or the id of a record currently in the list (as the
renderer does), and `addRandomInstance` only from states that are below the
maximum or carry no selection (so that eviction cannot orphan a selection). -/
inductive ReachableDisciplined (ios : Bool) : InstancesState → Prop where
  | init (now : ℝ) : ReachableDisciplined ios (initialState now)
  | add (s : InstancesState) (gen : Instance3D) (yr : ℝ)
      (hs : s.instances.length < MAX_INSTANCES ios ∨ s.selectedId = none) :
      ReachableDisciplined ios s →
      ReachableDisciplined ios (addRandomInstance ios s gen yr)
  | clear (s : InstancesState) (now : ℝ) :
      ReachableDisciplined ios s →
      ReachableDisciplined ios (clearInstances s now)
  | select (s : InstancesState) (id : Option String)
      (hid : id = none ∨ ∃ r ∈ s.instances, some r.id = id) :
      ReachableDisciplined ios s →
      ReachableDisciplined ios (selectInstance s id)
  | merge (s : InstancesState) (persisted : JSVal) (now : ℝ) :
      ReachableDisciplined ios s →
      ReachableDisciplined ios (mergePersisted persisted s now)

/-- A persisted blob whose `instances` array holds 27 valid records — more
than either platform maximum.  Used by the C3 counterexample. -/
def oversizedBlob : JSVal :=
  .vObj [("instances",
    .vArr (List.replicate 27 (.vObj [("id", .vStr "a"), ("name", .vStr "b")])))]

/-- The store operations with rehydration restricted as the amended C3
requires: merged blobs sanitize to at most `MAX_INSTANCES` records (as any
blob the store itself persisted does). -/
inductive ReachableBoundedMerge (ios : Bool) : InstancesState → Prop where
  | init (now : ℝ) : ReachableBoundedMerge ios (initialState now)
  | add (s : InstancesState) (gen : Instance3D) (yr : ℝ) :
      ReachableBoundedMerge ios s →
      ReachableBoundedMerge ios (addRandomInstance ios s gen yr)
  | clear (s : InstancesState) (now : ℝ) :
      ReachableBoundedMerge ios s →
      ReachableBoundedMerge ios (clearInstances s now)
  | select (s : InstancesState) (id : Option String) :
      ReachableBoundedMerge ios s →
      ReachableBoundedMerge ios (selectInstance s id)
  | merge (s : InstancesState) (persisted : JSVal) (now : ℝ)
      (hp : (sanitizeInstances (jsField persisted "instances") now).length ≤
        MAX_INSTANCES ios) :
      ReachableBoundedMerge ios s →
      ReachableBoundedMerge ios (mergePersisted persisted s now)

/-- A state sitting exactly at the iOS maximum of 14 records; used by the C4
witness. -/
def maxStateIOS : InstancesState :=
  { instances := List.replicate 14 (seedInstance 0), selectedId := none,
    lastCreatedId := none }

/-- The all-zero draw bundle; used by the C9 witness. -/
def zeroDraws : GeneratorDraws :=
  { idSuffix := "s", colorRoll := 0, ringRoll := 0, continentsRoll := 0,
    nameRoll := 0, nameR1 := 0, nameR2 := 0, scaleRoll := 0,
    rotationRoll := 0 }

example : sanitizeInstance (.vObj [("id", .vStr "a"), ("name", .vStr "b")]) 0 =
    some { id := "a", type := .planet, color := "#4C8DFF", ring := false,
           hasContinents := false, name := "b", scale := 1,
           position := (0, 0, 0), rotation := (0, 0, 0), createdAt := 0 } := rfl

example : sanitizeInstance (.vArr [.vStr "a"]) 0 = none := rfl

example : sanitizeInstance (.vStr "a") 0 = none := rfl

example :
    sanitizeInstances (.vArr [.vObj [("id", .vStr "a"), ("name", .vStr "b")],
      .vNull, .vObj [("id", .vStr "")]]) 0 =
    [{ id := "a", type := .planet, color := "#4C8DFF", ring := false,
       hasContinents := false, name := "b", scale := 1,
       position := (0, 0, 0), rotation := (0, 0, 0), createdAt := 0 }] := rfl

lemma sanitizeInstance_eq_none_iff (c : JSVal) (now : ℝ) :
    sanitizeInstance c now = none ↔
      ¬(isNonEmptyStringVal (jsField c "id") = true ∧
        isNonEmptyStringVal (jsField c "name") = true) := by
  rcases c with _ | _ | b | ⟨f, v⟩ | s | l | fs
  · simp [sanitizeInstance, isObjectLike, jsField, isNonEmptyStringVal]
  · simp [sanitizeInstance, isObjectLike, jsField, isNonEmptyStringVal]
  · simp [sanitizeInstance, isObjectLike, jsField, isNonEmptyStringVal]
  · simp [sanitizeInstance, isObjectLike, jsField, isNonEmptyStringVal]
  · simp [sanitizeInstance, isObjectLike, jsField, isNonEmptyStringVal]
  · simp [sanitizeInstance, isObjectLike, jsField, isNonEmptyStringVal]
  · rcases h1 : jsField (.vObj fs) "id" with _ | _ | b1 | ⟨f1, v1⟩ | s1 | l1 | g1 <;>
      rcases h2 : jsField (.vObj fs) "name" with _ | _ | b2 | ⟨f2, v2⟩ | s2 | l2 | g2 <;>
      simp [sanitizeInstance, isObjectLike, h1, h2, isNonEmptyStringVal]

lemma sanitizeInstance_some_imp (c : JSVal) (now : ℝ) (r : Instance3D)
    (h : sanitizeInstance c now = some r) : r.id ≠ "" ∧ r.name ≠ "" := by
  rcases c with _ | _ | b | ⟨f, v⟩ | s | l | fs
  · simp [sanitizeInstance, isObjectLike] at h
  · simp [sanitizeInstance, isObjectLike] at h
  · simp [sanitizeInstance, isObjectLike] at h
  · simp [sanitizeInstance, isObjectLike] at h
  · simp [sanitizeInstance, isObjectLike] at h
  · simp [sanitizeInstance, isObjectLike, jsField] at h
  · rcases h1 : jsField (.vObj fs) "id" with _ | _ | b1 | ⟨f1, v1⟩ | s1 | l1 | g1 <;>
      rcases h2 : jsField (.vObj fs) "name" with _ | _ | b2 | ⟨f2, v2⟩ | s2 | l2 | g2 <;>
      simp [sanitizeInstance, isObjectLike, h1, h2] at h
    obtain ⟨hs1, hs2, hr⟩ := h
    subst hr
    exact ⟨hs1, hs2⟩

lemma sanitizeInstance_vObj_eq (fs : List (String × JSVal)) (now : ℝ)
    (i n : String) (hi : jsField (.vObj fs) "id" = .vStr i)
    (hn : jsField (.vObj fs) "name" = .vStr n)
    (hi' : i ≠ "") (hn' : n ≠ "") :
    sanitizeInstance (.vObj fs) now = some
      { id := i
        type := .planet
        color := (match jsField (.vObj fs) "color" with
          | .vStr s => s | _ => "#4C8DFF")
        ring := (match jsField (.vObj fs) "ring" with
          | .vBool b => b | _ => false)
        hasContinents := (match jsField (.vObj fs) "hasContinents" with
          | .vBool b => b | _ => false)
        name := n
        scale := if isFiniteNumber (jsField (.vObj fs) "scale") then
            numVal (jsField (.vObj fs) "scale") else 1
        position := if isVector3Tuple (jsField (.vObj fs) "position") then
            vec3Val (jsField (.vObj fs) "position") else (0, 0, 0)
        rotation := if isVector3Tuple (jsField (.vObj fs) "rotation") then
            vec3Val (jsField (.vObj fs) "rotation") else (0, 0, 0)
        createdAt := if isFiniteNumber (jsField (.vObj fs) "createdAt") then
            numVal (jsField (.vObj fs) "createdAt") else now } := by
  simp [sanitizeInstance, isObjectLike, hi, hn, hi', hn']

/-- C1: over an arbitrary decoded blob, `sanitizeInstances` totally returns a
list of well-formed records (every returned record has a non-empty `id` and a
non-empty `name`), and a candidate record is dropped by `sanitizeInstance`
exactly when its `id` field is not a non-empty string or its `name` field is
not a non-empty string. -/
theorem sanitizeInstances_wellformed_drop_criterion (v : JSVal) (now : ℝ) :
    (∀ r ∈ sanitizeInstances v now, r.id ≠ "" ∧ r.name ≠ "") ∧
    (∀ c : JSVal, sanitizeInstance c now = none ↔
      ¬(isNonEmptyStringVal (jsField c "id") = true ∧
        isNonEmptyStringVal (jsField c "name") = true)) := by
  refine ⟨?_, fun c => sanitizeInstance_eq_none_iff c now⟩
  intro r hr
  rcases v with _ | _ | b | ⟨f, x⟩ | s | l | fs <;> simp [sanitizeInstances] at hr
  obtain ⟨c, -, hc⟩ := hr
  exact sanitizeInstance_some_imp c now r hc

/-- C1 witness: a record with an empty `name` is dropped; the surviving
record of a one-element blob has non-empty `id` and `name`. -/
theorem sanitizeInstances_wellformed_drop_criterion_witness :
    sanitizeInstance (.vObj [("id", .vStr "x"), ("name", .vStr "")]) 0 = none ∧
    (sampleSanitized.id ≠ "" ∧ sampleSanitized.name ≠ "") :=
  ⟨((sanitizeInstances_wellformed_drop_criterion .vNull 0).2
      (.vObj [("id", .vStr "x"), ("name", .vStr "")])).mpr
      (by simp [jsField, isNonEmptyStringVal]),
   (sanitizeInstances_wellformed_drop_criterion
      (.vArr [.vObj [("id", .vStr "x"), ("name", .vStr "y")]]) 0).1
      sampleSanitized (List.Mem.head _)⟩

/-- C8: for every store state, `clear` yields the defined baseline state:
exactly the single seed record (id `center`, name `Kepler-001`, position and
rotation `(0,0,0)`, scale 1, plus its fixed appearance fields), with no
selection and no last-created id. -/
theorem clear_yields_baseline (s : InstancesState) (now : ℝ) :
    clearInstances s now =
      { instances :=
          [{ id := "center", type := .planet, color := "#3B82F6",
             ring := false, hasContinents := true, name := "Kepler-001",
             scale := 1, position := (0, 0, 0), rotation := (0, 0, 0),
             createdAt := now }],
        selectedId := none, lastCreatedId := none } := rfl

/-- C7: `select` always leaves the selection equal to its argument, is the
identity when the selection already equals the argument, and is idempotent. -/
theorem select_noop_set_idempotent (s : InstancesState) (x : Option String) :
    (s.selectedId = x → selectInstance s x = s) ∧
    (selectInstance s x).selectedId = x ∧
    selectInstance (selectInstance s x) x = selectInstance s x := by
  refine ⟨fun h => by simp [selectInstance, h], ?_, ?_⟩
  · by_cases h : s.selectedId = x <;> simp [selectInstance, h]
  · by_cases h : s.selectedId = x <;> simp [selectInstance, h]

/-- C7 witness: selecting the already-current selection (here `null`) of the
initial state is an identity, and selecting a different id sets it. -/
theorem select_noop_set_idempotent_witness :
    selectInstance (initialState 0) none = initialState 0 ∧
    (selectInstance (initialState 0) (some "center")).selectedId =
      some "center" :=
  ⟨(select_noop_set_idempotent (initialState 0) none).1 rfl,
   (select_noop_set_idempotent (initialState 0) (some "center")).2.1⟩

/-- C5: the rehydration merge resets `lastCreatedId`, keeps the sanitized
persisted records when non-empty and the in-memory records otherwise, and
keeps the persisted selection exactly when it is a string equal to the id of
some sanitized surviving record. -/
theorem merge_semantics (p : JSVal) (cur : InstancesState) (now : ℝ) :
    (mergePersisted p cur now).lastCreatedId = none ∧
    (mergePersisted p cur now).instances =
      (if (sanitizeInstances (jsField p "instances") now).isEmpty
        then cur.instances else sanitizeInstances (jsField p "instances") now) ∧
    (∀ x : String, (mergePersisted p cur now).selectedId = some x ↔
      (jsField p "selectedId" = .vStr x ∧
       x ∈ (sanitizeInstances (jsField p "instances") now).map
            (fun r => r.id))) := by
  refine ⟨rfl, rfl, fun x => ?_⟩
  cases h : jsField p "selectedId" <;> simp [mergePersisted, h]
  case vStr s =>
    constructor
    · rintro ⟨hex, rfl⟩
      exact ⟨rfl, hex⟩
    · rintro ⟨rfl, hex⟩
      exact ⟨hex, rfl⟩

/-- C5 witness: merging a null persisted blob into the initial state resets
`lastCreatedId`. -/
theorem merge_semantics_witness :
    (mergePersisted .vNull (initialState 0) 0).lastCreatedId = none :=
  (merge_semantics .vNull (initialState 0) 0).1

/-- C2 counterexample: `select` does not validate its argument, so one
`select("ghost")` from the seed state reaches a state whose `selectedId` is
not `null` and matches no record in the list. -/
theorem selected_id_dangling_counterexample :
    Reachable false (selectInstance (initialState 0) (some "ghost")) ∧
    (selectInstance (initialState 0) (some "ghost")).selectedId ≠ none ∧
    (selectInstance (initialState 0) (some "ghost")).selectedId ∉
      (selectInstance (initialState 0) (some "ghost")).instances.map
        (fun r => some r.id) :=
  ⟨Reachable.select _ _ (Reachable.init 0),
   by simp [selectInstance, initialState],
   by simp [selectInstance, initialState, seedInstance, CENTER_INSTANCE_ID]⟩

lemma mergePersisted_selected_inv (p : JSVal) (s : InstancesState) (now : ℝ) :
    (mergePersisted p s now).selectedId = none ∨
    ∃ r ∈ (mergePersisted p s now).instances,
      some r.id = (mergePersisted p s now).selectedId := by
  cases h : jsField p "selectedId" <;> simp [mergePersisted, h]
  case vStr t =>
    by_cases hex : ∃ a ∈ sanitizeInstances (jsField p "instances") now, a.id = t
    · right
      obtain ⟨a, ha, hat⟩ := hex
      have hne : (sanitizeInstances (jsField p "instances") now).isEmpty
          = false := by
        simp [List.isEmpty_iff]
        exact List.ne_nil_of_mem ha
      refine ⟨a, ?_, ⟨⟨a, ha, hat⟩, hat⟩⟩
      simp [hne, ha]
    · left
      intro x hx hxt
      exact hex ⟨x, hx, hxt⟩

/-- C2 amended: in every state reachable from the seed state when `select` is
only called with `null` or an id of a current record, and `addRandomInstance`
only from states below the maximum or without a selection, `selectedId` is
`null` or the id of some record in the list.  (Unrestricted `select` and
eviction at the maximum both violate the original claim.) -/
theorem selected_id_references_existing (ios : Bool) (s : InstancesState)
    (h : ReachableDisciplined ios s) :
    s.selectedId = none ∨ ∃ r ∈ s.instances, some r.id = s.selectedId := by
  induction h with
  | init now => exact Or.inl rfl
  | add s gen yr hs _ ih =>
      rcases hs with hlen | hnone
      case inr => exact Or.inl (by simp [addRandomInstance, hnone])
      · rcases ih with hnone | ⟨r, hmem, hid⟩
        · exact Or.inl hnone
        · right
          refine ⟨r, ?_, hid⟩
          have hle : (({ gen with
              position := getSpiralSpawnPosition ios s.instances.length yr } :
                Instance3D) :: s.instances).length ≤ MAX_INSTANCES ios := by
            simpa using hlen
          simp only [addRandomInstance, List.take_of_length_le hle]
          exact List.mem_cons_of_mem _ hmem
  | clear s now _ _ => exact Or.inl rfl
  | select s id hid _ ih =>
      by_cases hsel : s.selectedId = id
      · simpa [selectInstance, hsel] using ih
      · rcases hid with rfl | ⟨r, hmem, hr⟩
        · exact Or.inl (by simp [selectInstance, hsel])
        · right
          exact ⟨r, by simpa [selectInstance, hsel] using hmem,
                 by simp [selectInstance, hsel, hr]⟩
  | merge s p now _ _ => exact mergePersisted_selected_inv p s now

/-- C2 witness: the amended invariant holds at the initial state. -/
theorem selected_id_references_existing_witness :
    (initialState 0).selectedId = none ∨
    ∃ r ∈ (initialState 0).instances,
      some r.id = (initialState 0).selectedId :=
  selected_id_references_existing false (initialState 0)
    (ReachableDisciplined.init 0)

/-- C3 counterexample: `merge` does not truncate, so rehydrating a blob with
27 valid records reaches a state whose list exceeds the maximum (26 on the
non-iOS platform). -/
theorem instances_exceed_max_counterexample :
    Reachable false (mergePersisted oversizedBlob (initialState 0) 0) ∧
    MAX_INSTANCES false <
      (mergePersisted oversizedBlob (initialState 0) 0).instances.length :=
  ⟨Reachable.merge _ _ _ (Reachable.init 0), by decide⟩

/-- C3 amended: in every state reachable by the store's operations when every
rehydrated blob sanitizes to at most the maximum (in particular, blobs the
store itself persisted), the instances list has length at most
`MAX_INSTANCES` (14 on iOS, 26 otherwise).  `merge` itself does not
truncate, so an arbitrary oversized blob violates the original claim. -/
theorem instances_length_le_max (ios : Bool) (s : InstancesState)
    (h : ReachableBoundedMerge ios s) :
    s.instances.length ≤ MAX_INSTANCES ios := by
  induction h with
  | init now => cases ios <;> simp [initialState, MAX_INSTANCES]
  | add s gen yr _ _ =>
      simp [addRandomInstance, List.length_take]
  | clear s now _ _ => cases ios <;> simp [clearInstances, MAX_INSTANCES]
  | select s id _ ih =>
      by_cases hsel : s.selectedId = id <;> simpa [selectInstance, hsel] using ih
  | merge s p now hp _ ih =>
      by_cases he : (sanitizeInstances (jsField p "instances") now).isEmpty <;>
        simp [mergePersisted, he]
      · exact ih
      · exact hp

/-- C3 witness: the amended bound at the initial state. -/
theorem instances_length_le_max_witness :
    (initialState 0).instances.length ≤ MAX_INSTANCES false :=
  instances_length_le_max false (initialState 0)
    (ReachableBoundedMerge.init 0)

/-- C4: from a state at the maximum, `addRandomInstance` keeps the length at
the maximum, prepends the generated record placed at the spiral position for
the pre-insert length, sets `lastCreatedId` to its id, drops exactly the last
(oldest) record and keeps the rest in order (and leaves the selection). -/
theorem add_at_max_evicts_oldest (ios : Bool) (s : InstancesState)
    (gen : Instance3D) (yr : ℝ)
    (h : s.instances.length = MAX_INSTANCES ios) :
    (addRandomInstance ios s gen yr).instances.length = MAX_INSTANCES ios ∧
    (addRandomInstance ios s gen yr).instances =
      ({ gen with position :=
          getSpiralSpawnPosition ios s.instances.length yr } : Instance3D) ::
        s.instances.dropLast ∧
    (addRandomInstance ios s gen yr).lastCreatedId = some gen.id ∧
    (addRandomInstance ios s gen yr).selectedId = s.selectedId := by
  have hmax1 : 1 ≤ MAX_INSTANCES ios := by cases ios <;> simp [MAX_INSTANCES]
  obtain ⟨m, hm⟩ : ∃ m, MAX_INSTANCES ios = m + 1 :=
    ⟨MAX_INSTANCES ios - 1, by omega⟩
  have hlist : (({ gen with position :=
        getSpiralSpawnPosition ios s.instances.length yr } : Instance3D) ::
        s.instances).take (MAX_INSTANCES ios) =
      ({ gen with position :=
        getSpiralSpawnPosition ios s.instances.length yr } : Instance3D) ::
        s.instances.dropLast := by
    have heq : m = s.instances.length - 1 := by omega
    rw [hm, List.take_succ_cons, heq, ← List.dropLast_eq_take]
  refine ⟨?_, ?_, rfl, rfl⟩
  · simp only [addRandomInstance, List.length_take, List.length_cons, h]
    omega
  · simp only [addRandomInstance]
    exact hlist

/-- C4 witness: inserting into a full 14-record iOS state keeps 14 records,
prepends the placed record, drops the last record, and sets `lastCreatedId`. -/
theorem add_at_max_evicts_oldest_witness :
    (addRandomInstance true maxStateIOS (seedInstance 0) 0).instances.length =
      MAX_INSTANCES true ∧
    (addRandomInstance true maxStateIOS (seedInstance 0) 0).instances =
      ({ seedInstance 0 with position :=
          getSpiralSpawnPosition true maxStateIOS.instances.length 0 } :
        Instance3D) :: maxStateIOS.instances.dropLast ∧
    (addRandomInstance true maxStateIOS (seedInstance 0) 0).lastCreatedId =
      some (seedInstance 0).id ∧
    (addRandomInstance true maxStateIOS (seedInstance 0) 0).selectedId =
      maxStateIOS.selectedId :=
  add_at_max_evicts_oldest true maxStateIOS (seedInstance 0) 0 rfl

lemma spiral_dist_eq (ios : Bool) (k : ℕ) (r : ℝ) :
    distFromAxis (getSpiralSpawnPosition ios k r) =
      SPAWN_SPACING ios * Real.sqrt k := by
  have hsp : 0 ≤ SPAWN_SPACING ios := by
    cases ios <;> norm_num [SPAWN_SPACING]
  have hR : 0 ≤ SPAWN_SPACING ios * Real.sqrt k :=
    mul_nonneg hsp (Real.sqrt_nonneg _)
  have hsq : (SPAWN_SPACING ios * Real.sqrt k *
        Real.cos ((k : ℝ) * GOLDEN_ANGLE_RADIANS)) ^ 2 +
      (SPAWN_SPACING ios * Real.sqrt k *
        Real.sin ((k : ℝ) * GOLDEN_ANGLE_RADIANS)) ^ 2 =
      (SPAWN_SPACING ios * Real.sqrt k) ^ 2 := by
    have hc := Real.sin_sq_add_cos_sq ((k : ℝ) * GOLDEN_ANGLE_RADIANS)
    nlinarith [hc]
  simp only [distFromAxis, getSpiralSpawnPosition]
  rw [hsq]
  exact Real.sqrt_sq hR

/-- C6: the spawn radius (distance from the vertical axis) equals
`SPAWN_SPACING · √index` and is non-decreasing in the insertion index; the
planar components are that radius at the angle `index · π(3 − √5)`; the
vertical coordinate lies in the fixed band `[−0.4, 1.2]`. -/
theorem spiral_radius_formula_monotone (ios : Bool) (i j : ℕ) (ri rj : ℝ)
    (hij : i ≤ j) (h0 : 0 ≤ ri) (h1 : ri < 1) :
    distFromAxis (getSpiralSpawnPosition ios i ri) =
      SPAWN_SPACING ios * Real.sqrt i ∧
    distFromAxis (getSpiralSpawnPosition ios i ri) ≤
      distFromAxis (getSpiralSpawnPosition ios j rj) ∧
    (getSpiralSpawnPosition ios i ri).1 =
      SPAWN_SPACING ios * Real.sqrt i *
        Real.cos ((i : ℝ) * (Real.pi * (3 - Real.sqrt 5))) ∧
    (getSpiralSpawnPosition ios i ri).2.2 =
      SPAWN_SPACING ios * Real.sqrt i *
        Real.sin ((i : ℝ) * (Real.pi * (3 - Real.sqrt 5))) ∧
    -0.4 ≤ (getSpiralSpawnPosition ios i ri).2.1 ∧
    (getSpiralSpawnPosition ios i ri).2.1 ≤ 1.2 := by
  have hsp : 0 ≤ SPAWN_SPACING ios := by
    cases ios <;> norm_num [SPAWN_SPACING]
  refine ⟨spiral_dist_eq ios i ri, ?_, rfl, rfl, ?_, ?_⟩
  · rw [spiral_dist_eq ios i ri, spiral_dist_eq ios j rj]
    exact mul_le_mul_of_nonneg_left
      (Real.sqrt_le_sqrt (by exact_mod_cast hij)) hsp
  · show -0.4 ≤ randomFloat (-0.4) 1.2 ri
    simp only [randomFloat]
    nlinarith
  · show randomFloat (-0.4) 1.2 ri ≤ 1.2
    simp only [randomFloat]
    nlinarith

/-- C6 witness: concrete indices 0 ≤ 1 and draw 0. -/
theorem spiral_radius_formula_monotone_witness :
    distFromAxis (getSpiralSpawnPosition false 0 0) ≤
      distFromAxis (getSpiralSpawnPosition false 1 0) ∧
    -0.4 ≤ (getSpiralSpawnPosition false 0 0).2.1 ∧
    (getSpiralSpawnPosition false 0 0).2.1 ≤ 1.2 :=
  ⟨(spiral_radius_formula_monotone false 0 1 0 0 (by norm_num) (by norm_num)
      (by norm_num)).2.1,
   (spiral_radius_formula_monotone false 0 1 0 0 (by norm_num) (by norm_num)
      (by norm_num)).2.2.2.2.1,
   (spiral_radius_formula_monotone false 0 1 0 0 (by norm_num) (by norm_num)
      (by norm_num)).2.2.2.2.2⟩

/-- C9: for any random draws in `[0, 1)`, the generated record's rotation is
`(0, θ, 0)` with `θ ∈ [0, π)` (rotation only about the vertical axis) and its
scale lies in `[0.65, 1.25]`. -/
theorem generator_rotation_scale_ranges (d : GeneratorDraws) (now : ℝ)
    (nowRepr : String) (h0 : 0 ≤ d.rotationRoll) (h1 : d.rotationRoll < 1)
    (g0 : 0 ≤ d.scaleRoll) (g1 : d.scaleRoll < 1) :
    (createRandomInstance d now nowRepr).rotation.1 = 0 ∧
    (createRandomInstance d now nowRepr).rotation.2.2 = 0 ∧
    0 ≤ (createRandomInstance d now nowRepr).rotation.2.1 ∧
    (createRandomInstance d now nowRepr).rotation.2.1 < Real.pi ∧
    0.65 ≤ (createRandomInstance d now nowRepr).scale ∧
    (createRandomInstance d now nowRepr).scale ≤ 1.25 := by
  have hpi := Real.pi_pos
  refine ⟨rfl, rfl, ?_, ?_, ?_, ?_⟩
  · show 0 ≤ randomFloat 0 Real.pi d.rotationRoll
    simp only [randomFloat]
    nlinarith
  · show randomFloat 0 Real.pi d.rotationRoll < Real.pi
    simp only [randomFloat]
    nlinarith
  · show 0.65 ≤ randomFloat 0.65 1.25 d.scaleRoll
    simp only [randomFloat]
    nlinarith
  · show randomFloat 0.65 1.25 d.scaleRoll ≤ 1.25
    simp only [randomFloat]
    nlinarith

/-- C9 witness: the ranges at the all-zero draws. -/
theorem generator_rotation_scale_ranges_witness :
    (createRandomInstance zeroDraws 0 "t").rotation.1 = 0 ∧
    (createRandomInstance zeroDraws 0 "t").rotation.2.2 = 0 ∧
    0 ≤ (createRandomInstance zeroDraws 0 "t").rotation.2.1 ∧
    (createRandomInstance zeroDraws 0 "t").rotation.2.1 < Real.pi ∧
    0.65 ≤ (createRandomInstance zeroDraws 0 "t").scale ∧
    (createRandomInstance zeroDraws 0 "t").scale ≤ 1.25 :=
  generator_rotation_scale_ranges zeroDraws 0 "t" (by norm_num [zeroDraws])
    (by norm_num [zeroDraws]) (by norm_num [zeroDraws]) (by norm_num [zeroDraws])

/-- C10: a candidate object whose `id` and `name` are non-empty strings is
kept; every malformed secondary field is replaced by its fixed default
(color `#4C8DFF`, ring `false`, hasContinents `false`, scale 1, position and
rotation `(0,0,0)`, createdAt the current time) and every well-formed one is
preserved; and whether a candidate is dropped depends only on its `id` and
`name` fields. -/
theorem sanitize_defaults_and_drop_depends_only_on_id_name (now : ℝ) :
    (∀ (fs : List (String × JSVal)) (i n : String),
      jsField (.vObj fs) "id" = .vStr i → i ≠ "" →
      jsField (.vObj fs) "name" = .vStr n → n ≠ "" →
      ∃ r : Instance3D, sanitizeInstance (.vObj fs) now = some r ∧
        r.id = i ∧ r.name = n ∧
        (∀ s : String, jsField (.vObj fs) "color" = .vStr s → r.color = s) ∧
        ((∀ s : String, jsField (.vObj fs) "color" ≠ .vStr s) →
          r.color = "#4C8DFF") ∧
        (∀ b : Bool, jsField (.vObj fs) "ring" = .vBool b → r.ring = b) ∧
        ((∀ b : Bool, jsField (.vObj fs) "ring" ≠ .vBool b) →
          r.ring = false) ∧
        (∀ b : Bool, jsField (.vObj fs) "hasContinents" = .vBool b →
          r.hasContinents = b) ∧
        ((∀ b : Bool, jsField (.vObj fs) "hasContinents" ≠ .vBool b) →
          r.hasContinents = false) ∧
        (isFiniteNumber (jsField (.vObj fs) "scale") = true →
          r.scale = numVal (jsField (.vObj fs) "scale")) ∧
        (isFiniteNumber (jsField (.vObj fs) "scale") = false →
          r.scale = 1) ∧
        (isVector3Tuple (jsField (.vObj fs) "position") = true →
          r.position = vec3Val (jsField (.vObj fs) "position")) ∧
        (isVector3Tuple (jsField (.vObj fs) "position") = false →
          r.position = (0, 0, 0)) ∧
        (isVector3Tuple (jsField (.vObj fs) "rotation") = true →
          r.rotation = vec3Val (jsField (.vObj fs) "rotation")) ∧
        (isVector3Tuple (jsField (.vObj fs) "rotation") = false →
          r.rotation = (0, 0, 0)) ∧
        (isFiniteNumber (jsField (.vObj fs) "createdAt") = true →
          r.createdAt = numVal (jsField (.vObj fs) "createdAt")) ∧
        (isFiniteNumber (jsField (.vObj fs) "createdAt") = false →
          r.createdAt = now)) ∧
    (∀ c c' : JSVal, jsField c "id" = jsField c' "id" →
      jsField c "name" = jsField c' "name" →
      ((sanitizeInstance c now).isSome ↔ (sanitizeInstance c' now).isSome)) := by
  constructor
  · intro fs i n hi hi' hn hn'
    refine ⟨_, sanitizeInstance_vObj_eq fs now i n hi hn hi' hn',
      rfl, rfl, ?_, ?_, ?_, ?_, ?_, ?_, ?_, ?_, ?_, ?_, ?_, ?_, ?_, ?_⟩
    · intro s hs; simp [hs]
    · intro h
      cases hc : jsField (.vObj fs) "color" <;>
        first
          | exact absurd hc (h _)
          | simp [hc]
    · intro b hb; simp [hb]
    · intro h
      cases hc : jsField (.vObj fs) "ring" <;>
        first
          | exact absurd hc (h _)
          | simp [hc]
    · intro b hb; simp [hb]
    · intro h
      cases hc : jsField (.vObj fs) "hasContinents" <;>
        first
          | exact absurd hc (h _)
          | simp [hc]
    · intro hf; simp [hf]
    · intro hf; simp [hf]
    · intro hf; simp [hf]
    · intro hf; simp [hf]
    · intro hf; simp [hf]
    · intro hf; simp [hf]
    · intro hf; simp [hf]
    · intro hf; simp [hf]
  · intro c c' hid hname
    have hsome : ∀ v : JSVal, ((sanitizeInstance v now).isSome = true ↔
        ¬ sanitizeInstance v now = none) := by
      intro v; cases sanitizeInstance v now <;> simp
    rw [hsome c, hsome c', sanitizeInstance_eq_none_iff,
      sanitizeInstance_eq_none_iff, hid, hname]

/-- C10 witness: two candidates with the same `id` and `name` fields (one
with an extra color field) are both kept or both dropped. -/
theorem sanitize_defaults_and_drop_depends_only_on_id_name_witness :
    ((sanitizeInstance (.vObj [("id", .vStr "a"), ("name", .vStr "b"),
        ("color", .vStr "red")]) 0).isSome ↔
     (sanitizeInstance (.vObj [("id", .vStr "a"), ("name", .vStr "b")])
        0).isSome) :=
  (sanitize_defaults_and_drop_depends_only_on_id_name 0).2
    (.vObj [("id", .vStr "a"), ("name", .vStr "b"), ("color", .vStr "red")])
    (.vObj [("id", .vStr "a"), ("name", .vStr "b")]) rfl rfl
